import Mathlib

/-!
Shallow embedding of the LearnSpanish repository's core logic
(src/config_manager.py and src/ollama_manager.py), with theorems settling
the frozen claims about configuration persistence, secrets handling, model
discovery and LLM-call routing/error classification.

Python dictionaries are modelled as insertion-ordered association lists
(`PyDict`), Python exceptions as `Except` values, the filesystem as an
association list from path to file contents, and external collaborators
(the Ollama service, the network) as explicit parameters.
-/

namespace LearnSpanish

/-! Association-list model of Python dicts (insertion-ordered, lookup by key). -/

/-- A Python dict with string keys: ordered association list. -/
abbrev PyDict (α : Type) : Type := List (String × α)

/-- First-match lookup, `d.get(k)` / `d[k]` returning `none` on a missing key. -/
def dlookup {α : Type} : PyDict α → String → Option α
  | [], _ => none
  | (k, v) :: t, key => if k = key then some v else dlookup t key

/-- Python dict assignment `d[k] = v`: replaces in place if the key exists,
otherwise appends at the end (insertion order preserved). -/
def dinsert {α : Type} (d : PyDict α) (k : String) (v : α) : PyDict α :=
  if (dlookup d k).isSome then
    d.map (fun p => if p.1 = k then (k, v) else p)
  else
    d ++ [(k, v)]

/-- Python dict merge `{**a, **b}`: keys of `a` in order with values of `b`
overriding, then the keys of `b` not in `a`, in order. -/
def mergeDicts {α : Type} (a b : PyDict α) : PyDict α :=
  a.map (fun p => (p.1, (dlookup b p.1).getD p.2)) ++
    b.filter (fun p => (dlookup a p.1).isNone)

theorem dlookup_append {α : Type} (l₁ l₂ : PyDict α) (k : String) :
    dlookup (l₁ ++ l₂) k = (dlookup l₁ k).orElse (fun _ => dlookup l₂ k) := by
  induction l₁ with
  | nil => rfl
  | cons p t ih =>
    obtain ⟨k₁, v₁⟩ := p
    by_cases h : k₁ = k
    · simp [dlookup, h, List.cons_append, Option.orElse]
    · simpa [dlookup, h, List.cons_append] using ih

theorem dlookup_mapOverride {α : Type} (f : String → α → α) (a : PyDict α) (k : String) :
    dlookup (a.map (fun p => (p.1, f p.1 p.2))) k = (dlookup a k).map (f k) := by
  induction a with
  | nil => rfl
  | cons p t ih =>
    obtain ⟨k₁, v₁⟩ := p
    by_cases h : k₁ = k
    · subst h; simp [dlookup]
    · simpa [dlookup, h] using ih

theorem dlookup_filter_of_lookup_none {α : Type} (a b : PyDict α) (k : String)
    (h : dlookup a k = none) :
    dlookup (b.filter (fun p => (dlookup a p.1).isNone)) k = dlookup b k := by
  induction b with
  | nil => rfl
  | cons p t ih =>
    obtain ⟨k₁, v₁⟩ := p
    by_cases hk : k₁ = k
    · subst hk
      simp [List.filter_cons, h, dlookup]
    · by_cases hp : (dlookup a k₁).isNone
      · simp only [List.filter_cons, hp, if_pos]
        simpa [dlookup, hk] using ih
      · simp only [List.filter_cons, hp, if_neg]
        simpa [dlookup, hk] using ih

theorem dlookup_filter_of_lookup_some {α : Type} (a b : PyDict α) (k : String)
    (h : (dlookup a k).isSome) :
    dlookup (b.filter (fun p => (dlookup a p.1).isNone)) k = none := by
  induction b with
  | nil => rfl
  | cons p t ih =>
    obtain ⟨k₁, v₁⟩ := p
    by_cases hk : k₁ = k
    · subst hk
      have : ¬ (dlookup a k₁).isNone := by
        cases hd : dlookup a k₁ <;> simp_all
      simp [List.filter_cons, this, ih]
    · by_cases hp : (dlookup a k₁).isNone
      · simp only [List.filter_cons, hp, if_pos]
        simpa [dlookup, hk] using ih
      · simp only [List.filter_cons, hp, if_neg]
        exact ih

/-- Lookup in a Python merge `{**a, **b}`: the value from `b` when present,
else the value from `a`. -/
theorem dlookup_mergeDicts {α : Type} (a b : PyDict α) (k : String) :
    dlookup (mergeDicts a b) k = (dlookup b k).orElse (fun _ => dlookup a k) := by
  unfold mergeDicts
  rw [dlookup_append, dlookup_mapOverride (fun key v => (dlookup b key).getD v)]
  cases ha : dlookup a k with
  | none =>
    rw [dlookup_filter_of_lookup_none a b k ha]
    cases hb : dlookup b k <;> simp [Option.orElse]
  | some v =>
    rw [dlookup_filter_of_lookup_some a b k (by simp [ha])]
    cases hb : dlookup b k <;> simp [Option.orElse, hb]

/-! String helpers mirroring the Python string operations used by the source
(`str.lower`, the `in` substring test, `str.strip`, `str.split` at the first
separator, lexicographic comparison of strings, `"".join`-style concatenation).
They are written over `String.data` so that concrete instances evaluate
inside the kernel. -/

/-- Python `s.lower()` (ASCII case folding, which is all the source needs). -/
def lowerStr (s : String) : String := ⟨s.data.map Char.toLower⟩

/-- Is `needle` an initial segment of `hay`. -/
def charsStartWith : List Char → List Char → Bool
  | [], _ => true
  | _ :: _, [] => false
  | a :: as, b :: bs => a = b && charsStartWith as bs

/-- Python `needle in hay`: contiguous-substring test. -/
def charsContain (needle : List Char) : List Char → Bool
  | [] => charsStartWith needle []
  | c :: t => charsStartWith needle (c :: t) || charsContain needle t

/-- Python `needle in hay` on strings. -/
def strContainsSub (hay needle : String) : Bool :=
  charsContain needle.data hay.data

/-- Lexicographic order on char lists by code point, Python string `<`. -/
def charListLt : List Char → List Char → Bool
  | [], [] => false
  | [], _ :: _ => true
  | _ :: _, [] => false
  | a :: as, b :: bs => if a < b then true else if b < a then false else charListLt as bs

/-- Python string `<`. -/
def strLtB (a b : String) : Bool := charListLt a.data b.data

/-- Concatenation of a list of strings (the pieces a sequence of `f.write`
calls puts into a file). -/
def strJoin : List String → String
  | [] => ""
  | s :: t => s ++ strJoin t

/-- Python `s.strip()`: drop whitespace from both ends. -/
def pyStrip (s : String) : String :=
  ⟨((s.data.dropWhile Char.isWhitespace).reverse.dropWhile Char.isWhitespace).reverse⟩

/-- Python `line.split(sep, 1)` at the first `=`: `none` when no `=` occurs
(the `'=' in line` test failing). -/
def splitAtFirstEq : List Char → Option (List Char × List Char)
  | [] => none
  | c :: t =>
      if c = '=' then some ([], t)
      else (splitAtFirstEq t).map (fun p => (c :: p.1, p.2))

theorem charListLt_irrefl : ∀ l : List Char, charListLt l l = false
  | [] => rfl
  | a :: as => by simp [charListLt, charListLt_irrefl as]

theorem charListLt_trans : ∀ as bs cs : List Char,
    charListLt as bs = true → charListLt bs cs = true → charListLt as cs = true := by
  intro as
  induction as with
  | nil =>
    intro bs cs h1 h2
    cases bs with
    | nil => simp [charListLt] at h1
    | cons b bs =>
      cases cs with
      | nil => simp [charListLt] at h2
      | cons c cs => simp [charListLt]
  | cons a as ih =>
    intro bs cs h1 h2
    cases bs with
    | nil => simp [charListLt] at h1
    | cons b bs =>
      cases cs with
      | nil => simp [charListLt] at h2
      | cons c cs =>
        simp only [charListLt] at h1 h2 ⊢
        by_cases hab : a < b
        · by_cases hbc : b < c
          · simp [lt_trans hab hbc]
          · by_cases hcb : c < b
            · simp [hbc, hcb] at h2
            · have : b = c := le_antisymm (not_lt.mp hcb) (not_lt.mp hbc)
              subst this
              simp [hab]
        · by_cases hba : b < a
          · simp [hab, hba] at h1
          · have : a = b := le_antisymm (not_lt.mp hba) (not_lt.mp hab)
            subst this
            by_cases hbc : a < c
            · simp [hbc]
            · by_cases hcb : c < a
              · simp [hbc, hcb] at h2
              · have : a = c := le_antisymm (not_lt.mp hcb) (not_lt.mp hbc)
                subst this
                simp only [hab, if_neg, if_neg (lt_irrefl a)] at h1 h2 ⊢
                simp only [lt_irrefl, if_false] at h1 h2 ⊢
                exact ih _ _ h1 h2

theorem charListLt_of_not_lt_of_ne : ∀ as bs : List Char,
    charListLt as bs = false → as ≠ bs → charListLt bs as = true := by
  intro as
  induction as with
  | nil =>
    intro bs h hne
    cases bs with
    | nil => exact absurd rfl hne
    | cons b bs => simp [charListLt] at h
  | cons a as ih =>
    intro bs h hne
    cases bs with
    | nil => simp [charListLt]
    | cons b bs =>
      simp only [charListLt] at h ⊢
      by_cases hab : a < b
      · simp [hab] at h
      · by_cases hba : b < a
        · simp [hba]
        · have hEq : a = b := le_antisymm (not_lt.mp hba) (not_lt.mp hab)
          subst hEq
          simp only [lt_irrefl, if_false] at h ⊢
          have : as ≠ bs := by
            intro hcontr; exact hne (by rw [hcontr])
          exact ih bs h this

theorem strLtB_irrefl (s : String) : strLtB s s = false :=
  charListLt_irrefl s.data

theorem strLtB_trans {a b c : String} (h1 : strLtB a b = true) (h2 : strLtB b c = true) :
    strLtB a c = true :=
  charListLt_trans a.data b.data c.data h1 h2

theorem strLtB_of_not_lt_of_ne {a b : String} (h : strLtB a b = false) (hne : a ≠ b) :
    strLtB b a = true := by
  refine charListLt_of_not_lt_of_ne a.data b.data h ?_
  intro hd
  exact hne (String.ext hd)

theorem ne_of_strLtB {a b : String} (h : strLtB a b = true) : a ≠ b := by
  intro hEq
  subst hEq
  rw [strLtB_irrefl] at h
  exact Bool.false_ne_true h

/-! Python `sorted(set(xs))` on strings: build a strictly sorted,
duplicate-free list by repeated ordered insertion. -/

/-- Insert a string into a strictly sorted list, skipping it when already
present. -/
def insertStrict (x : String) : List String → List String
  | [] => [x]
  | y :: t =>
      if x = y then y :: t
      else if strLtB x y then x :: y :: t
      else y :: insertStrict x t

/-- Python `sorted(set(xs))` for lists of strings. -/
def sortedSet (xs : List String) : List String := xs.foldr insertStrict []

theorem mem_insertStrict (a x : String) : ∀ l : List String,
    a ∈ insertStrict x l ↔ a = x ∨ a ∈ l := by
  intro l
  induction l with
  | nil => simp [insertStrict]
  | cons y t ih =>
    by_cases hxy : x = y
    · subst hxy
      simp only [insertStrict, if_pos rfl]
      constructor
      · intro h; exact Or.inr h
      · rintro (rfl | h)
        · exact List.mem_cons_self _ _
        · exact h
    · by_cases hlt : strLtB x y
      · simp [insertStrict, hxy, hlt, List.mem_cons]
      · have hltF : strLtB x y = false := by simpa using hlt
        simp only [insertStrict, if_neg hxy, hltF, Bool.false_eq_true, if_false,
          List.mem_cons, ih]
        tauto

/-- Strict sortedness is preserved by ordered insertion. -/
theorem pairwise_insertStrict (x : String) : ∀ l : List String,
    l.Pairwise (fun a b => strLtB a b = true) →
    (insertStrict x l).Pairwise (fun a b => strLtB a b = true) := by
  intro l
  induction l with
  | nil => intro _; simp [insertStrict]
  | cons y t ih =>
    intro hp
    rcases List.pairwise_cons.mp hp with ⟨hy, ht⟩
    by_cases hxy : x = y
    · subst hxy
      simpa [insertStrict] using hp
    · by_cases hlt : strLtB x y
      · simp only [insertStrict, if_neg hxy, hlt, if_pos]
        refine List.pairwise_cons.mpr ⟨?_, hp⟩
        intro b hb
        rcases List.mem_cons.mp hb with rfl | hb
        · exact hlt
        · exact strLtB_trans hlt (hy b hb)
      · have hltF : strLtB x y = false := by simpa using hlt
        have hyx : strLtB y x = true := strLtB_of_not_lt_of_ne hltF hxy
        simp only [insertStrict, if_neg hxy, hltF, Bool.false_eq_true, if_false]
        refine List.pairwise_cons.mpr ⟨?_, ih ht⟩
        intro b hb
        rcases (mem_insertStrict b x t).mp hb with rfl | hb
        · exact hyx
        · exact hy b hb

theorem pairwise_sortedSet (xs : List String) :
    (sortedSet xs).Pairwise (fun a b => strLtB a b = true) := by
  induction xs with
  | nil => simp [sortedSet]
  | cons x t ih => exact pairwise_insertStrict x _ ih

theorem nodup_sortedSet (xs : List String) : (sortedSet xs).Nodup := by
  refine List.Pairwise.imp ?_ (pairwise_sortedSet xs)
  intro a b h
  exact ne_of_strLtB h

theorem mem_sortedSet (a : String) (xs : List String) :
    a ∈ sortedSet xs ↔ a ∈ xs := by
  induction xs with
  | nil => simp [sortedSet]
  | cons x t ih =>
    simp only [sortedSet, List.foldr_cons]
    rw [mem_insertStrict]
    rw [show List.foldr insertStrict [] t = sortedSet t from rfl, ih]
    simp [List.mem_cons]

/-! Embedding of src/config_manager.py. -/

/-- A JSON scalar as stored in config.json (string, bool, int or float;
the one float in the default set, 0.5, is represented exactly as a
rational). -/
inductive JValue where
  | str (v : String)
  | bool (v : Bool)
  | int (v : Int)
  | num (v : ℚ)
deriving DecidableEq

/-- Python truthiness of a JSON scalar, used by `if use_cloud:`. -/
def truthy : JValue → Bool
  | .str s => !(s == "")
  | .bool b => b
  | .int n => !(n == 0)
  | .num q => !(q == 0)

/-- Rendering of a JSON scalar when interpolated into a message string. -/
def jstr : JValue → String
  | .str s => s
  | .bool b => cond b "True" "False"
  | .int n => toString n
  | .num q => toString q

/-- DEFAULT_CONFIG of src/config_manager.py, lines 40-56. -/
def DEFAULT_CONFIG : PyDict JValue :=
  [("version", .str "1.0.0"),
   ("preferred_model", .str "deepseek-v3.1:671b-cloud"),
   ("use_cloud", .bool false),
   ("cloud_endpoint", .str "https://ollama.com"),
   ("speech_timeout", .int 10),
   ("phrase_time_limit", .int 15),
   ("ambient_noise_duration", .num (1 / 2)),
   ("spanish_dialect", .str "es-ES"),
   ("english_dialect", .str "en-US"),
   ("speech_speed", .bool false),
   ("max_conversation_history", .int 50),
   ("auto_play_audio", .bool true),
   ("show_timestamps", .bool false),
   ("log_level", .str "INFO"),
   ("theme", .str "light")]

/-- State of the persisted config.json as load_config observes it: the file
is absent, present but invalid JSON, or present and parsed to a dict. -/
inductive DiskConfig where
  | missing
  | corrupt
  | parsed (d : PyDict JValue)
deriving DecidableEq

/-- ConfigManager.load_config (src/config_manager.py lines 128-165), cache
aside: a parsed file is merged over the defaults with `{**DEFAULT_CONFIG,
**loaded_config}`; a missing or unparseable file yields a copy of the
defaults (the missing-file branch additionally writes the defaults back,
which does not affect the returned value). -/
def load_config : DiskConfig → PyDict JValue
  | .parsed d => mergeDicts DEFAULT_CONFIG d
  | .corrupt => DEFAULT_CONFIG
  | .missing => DEFAULT_CONFIG

/-- ConfigManager.save_config at the level of the persisted object: the
whole dict `config` is serialized and becomes the new content of
config.json (lines 177-202; the file-operation level is modelled
separately below). -/
def save_config_store (config : PyDict JValue) : DiskConfig :=
  DiskConfig.parsed config

/-! File-operation model for the atomicity claims. A filesystem is a map
from path to file content; the primitive steps are the ones the source
performs: `open(path, "w")` (creates or truncates), `f.write` (appends to
an open file), `Path.replace` (rename over the target) and `Path.unlink`. -/

/-- Filesystem: association list from path to content. -/
abbrev FS : Type := List (String × String)

/-- A primitive file operation. -/
inductive FOp where
  | openTrunc (path : String)
  | write (path : String) (s : String)
  | rename (src dst : String)
  | unlink (path : String)
deriving DecidableEq

/-- Remove a path from the filesystem. -/
def eraseFile (fs : FS) (p : String) : FS := fs.filter (fun q => q.1 ≠ p)

/-- Create or replace a file. -/
def setFile (fs : FS) (p c : String) : FS := (p, c) :: eraseFile fs p

/-- Effect of one primitive operation. -/
def applyOp (fs : FS) : FOp → FS
  | .openTrunc p => setFile fs p ""
  | .write p s => setFile fs p ((dlookup fs p).getD "" ++ s)
  | .rename src dst =>
      match dlookup fs src with
      | some c => setFile (eraseFile fs src) dst c
      | none => fs
  | .unlink p => eraseFile fs p

/-- Effect of a sequence of operations. -/
def applyOps (fs : FS) (ops : List FOp) : FS := ops.foldl applyOp fs

/-- CONFIG_FILE of src/config_manager.py line 33 (HOME abbreviates the
user home directory). -/
def CONFIG_FILE : String := "HOME/.spanish_tutor/config.json"

/-- The temporary path `file_path.with_suffix('.tmp')` used by
ConfigManager._atomic_write for CONFIG_FILE. -/
def CONFIG_TMP : String := "HOME/.spanish_tutor/config.tmp"

/-- ENV_FILE of src/config_manager.py line 34. -/
def ENV_FILE : String := "HOME/.spanish_tutor/.env.txt"

/-- The file operations of save_config via _atomic_write (lines 105-126,
189-198): open the temp file, write the serialized configuration
(`content`), rename the temp file over config.json. -/
def save_config_ops (content : String) : List FOp :=
  [FOp.openTrunc CONFIG_TMP, FOp.write CONFIG_TMP content,
   FOp.rename CONFIG_TMP CONFIG_FILE]

/-- A run of save_config in which the operation at index `failAt` (if any,
and in range) raises: _atomic_write's except-branch unlinks the temp file
and re-raises, and save_config's except-branch catches everything and
returns False. A successful run returns True. -/
def save_config_run (fs : FS) (content : String) (failAt : Option Nat) : FS × Bool :=
  let ops := save_config_ops content
  match failAt with
  | some i =>
      if i < ops.length then
        (applyOp (applyOps fs (ops.take i)) (FOp.unlink CONFIG_TMP), false)
      else (applyOps fs ops, true)
  | none => (applyOps fs ops, true)

/-- Parsing of the .env.txt lines by ConfigManager.load_env (lines
258-275): strip each line; skip blank lines and lines starting with `#`;
on lines containing `=`, split at the first `=` and assign the stripped
key/value into the dict; other lines are logged and skipped. -/
def parseEnvLines (lines : List String) : PyDict String :=
  lines.foldl (fun env line =>
    let l := pyStrip line
    match l.data with
    | [] => env
    | c :: _ =>
        if c = '#' then env
        else
          match splitAtFirstEq l.data with
          | some p => dinsert env (pyStrip ⟨p.1⟩) (pyStrip ⟨p.2⟩)
          | none => env) []

/-- ConfigManager.load_env (lines 233-290), cache aside. Each candidate
file is either absent (`none`), unreadable (`some (.error ())`, the
except-branch yielding an empty dict) or a list of lines. The
project-local file takes precedence; with neither file present the result
is the empty dict. -/
def load_env (project home : Option (Except Unit (List String))) : PyDict String :=
  match project, home with
  | some (.ok lines), _ => parseEnvLines lines
  | some (.error _), _ => []
  | none, some (.ok lines) => parseEnvLines lines
  | none, some (.error _) => []
  | none, none => []

/-- get_api_key (src/config_manager.py lines 346-356) applied to a loaded
environment dict: `env_vars.get('OLLAMA_API_KEY', '')`. -/
def get_api_key (envVars : PyDict String) : String :=
  (dlookup envVars "OLLAMA_API_KEY").getD ""

/-- The header comment lines save_env writes before the variables
(lines 326-328). -/
def envHeaderWrites : List String :=
  ["# Spanish Tutor Environment Variables\n",
   "# DO NOT SHARE THIS FILE - IT CONTAINS SENSITIVE API KEYS\n",
   "# Auto-generated by Spanish Learning Assistant\n\n"]

/-- One `KEY=VALUE` line as written by save_env (line 331). -/
def renderEnvLine (p : String × String) : String := p.1 ++ "=" ++ p.2 ++ "\n"

/-- Ordered comparison of dict items as Python `sorted` uses on
`(key, value)` tuples: by key, then by value. -/
def pairLeB (p q : String × String) : Bool :=
  if p.1 = q.1 then strLtB p.2 q.2 || p.2 == q.2 else strLtB p.1 q.1

/-- Insertion into a list sorted by `pairLeB`. -/
def insertPairSorted (p : String × String) :
    List (String × String) → List (String × String)
  | [] => [p]
  | q :: t => if pairLeB p q then p :: q :: t else q :: insertPairSorted p t

/-- Python `sorted(env_vars.items())`. -/
def sortEnvItems (env : PyDict String) : List (String × String) :=
  env.foldr insertPairSorted []

/-- The strings save_env passes to `f.write`, in order (lines 325-331):
three header comment lines, then one `KEY=VALUE` line per variable in
sorted key order. -/
def save_env_writes (env : PyDict String) : List String :=
  envHeaderWrites ++ (sortEnvItems env).map renderEnvLine

/-- The file operations of save_env (lines 319-344): `open(ENV_FILE, 'w')`
truncates the target secrets file in place, then each write appends to it.
There is no temporary file and no rename. -/
def save_env_ops (env : PyDict String) : List FOp :=
  FOp.openTrunc ENV_FILE :: (save_env_writes env).map (FOp.write ENV_FILE)

/-- A run of save_env in which the operation at index `failAt` (if any,
and in range) raises: the surrounding try/except catches everything and
returns False, with no cleanup of the partially written file. A successful
run returns True (the chmod step never raises out: its exception is
swallowed by an inner try/except). -/
def save_env_run (fs : FS) (env : PyDict String) (failAt : Option Nat) : FS × Bool :=
  let ops := save_env_ops env
  match failAt with
  | some i =>
      if i < ops.length then (applyOps fs (ops.take i), false)
      else (applyOps fs ops, true)
  | none => (applyOps fs ops, true)

/-- Does an operation rename one path over another. -/
def FOp.isRenameStep : FOp → Bool
  | .rename _ _ => true
  | _ => false

/-! Embedding of src/ollama_manager.py. -/

/-- CLOUD_MODELS (src/ollama_manager.py lines 34-39): the static catalog of
cloud-hosted models, name to description. -/
def CLOUD_MODELS : PyDict String :=
  [("deepseek-v3.1:671b-cloud",
    "671B parameters - Excellent multilingual support (RECOMMENDED)"),
   ("gpt-oss:120b-cloud", "120B parameters - GPT-style open source model"),
   ("gpt-oss:20b-cloud", "20B parameters - Smaller GPT-style model"),
   ("qwen3-coder:480b-cloud", "480B parameters - Specialized for coding")]

/-- A cloud model descriptor as returned by get_cloud_models. -/
structure CloudModel where
  name : String
  description : String
deriving DecidableEq

/-- get_cloud_models (lines 115-128): the static catalog as a list of
name/description records; pure, no I/O. -/
def get_cloud_models : List CloudModel :=
  CLOUD_MODELS.map (fun p => ⟨p.1, p.2⟩)

/-- Outcome of the filesystem fallback scan of get_local_models (lines
92-112): the manifests directory does not exist, or its subdirectory names
were listed, or the scan itself raised. -/
inductive FsScan where
  | missing
  | dirs (names : List String)
  | failure
deriving DecidableEq

/-- Name extraction from the API response (lines 67-78): each model entry
yields its `name` field when present (else the empty-string default), and
only non-empty names are kept. -/
def localNamesOf (entries : List (Option String)) : List String :=
  (entries.map (fun o => o.getD "")).filter (fun n => !(n == ""))

/-- get_local_models (src/ollama_manager.py lines 42-112). The `ollama.list()`
call is modelled as either a list of entries (each entry's `name` field, or
`none` when the field is absent) or a raised exception; the Windows
filesystem fallback as an `FsScan`. On API success the non-empty names are
returned as `sorted(set(...))`; on API failure the fallback directory names
are returned the same way when non-empty; every other path returns `[]`.
The function is total: no exception escapes. -/
def get_local_models (ollamaAvailable : Bool)
    (api : Except String (List (Option String))) (fsr : FsScan) : List String :=
  if !ollamaAvailable then []
  else
    match api with
    | .ok entries => sortedSet (localNamesOf entries)
    | .error _ =>
        match fsr with
        | .dirs names => if names.isEmpty then [] else sortedSet names
        | .missing => []
        | .failure => []

/-- The message of the missing-API-key short circuit of call_cloud_llm
(lines 229-238). -/
def noApiKeyMsg : String :=
  "Error: No API key found.\n\nPlease:\n1. Go to https://ollama.com/settings/keys\n2. Create an API key\n3. Save it in Options → API Key Configuration"

/-- The message when the ollama library is not installed (line 241). -/
def ollamaLibMsg : String :=
  "Error: Ollama library not installed.\n\nPlease install: pip install ollama"

/-- The 401/unauthorized classification message (lines 272-279). -/
def invalidApiKeyMsg (e : String) : String :=
  "Error: Invalid API key.\n\nPlease:\n1. Check your API key at https://ollama.com/settings/keys\n2. Update in Options → API Key Configuration\n\nDetails: " ++ e

/-- The 404/not-found classification message (lines 282-291), with its
hardcoded list of cloud model names. -/
def unknownModelMsg (model e : String) : String :=
  "Error: Model '" ++ model ++ "' not found on Ollama cloud.\n\nAvailable cloud models:\n- deepseek-v3.1:671b-cloud\n- gpt-oss:120b-cloud\n- gpt-oss:20b-cloud\n- qwen3-coder:480b-cloud\n\nDetails: " ++ e

/-- The connection/resolve classification message (lines 294-302). -/
def cloudConnectionMsg (endpoint e : String) : String :=
  "Error: Cannot connect to " ++ endpoint ++ "\n\nPlease check:\n1. Internet connection\n2. Endpoint URL (should be: https://ollama.com)\n3. Firewall settings\n\nDetails: " ++ e

/-- The catch-all cloud error message (lines 306-311). -/
def cloudGenericMsg (e : String) : String :=
  "Error calling Ollama cloud:\n" ++ e ++ "\n\nIf this persists, try:\n1. Regenerate API key\n2. Check https://ollama.com/status"

/-- The exception classifier of call_cloud_llm (lines 269-314): ordered
substring checks on the lowercased error text, 401/unauthorized first,
then 404/not found, then connection/resolve, else the generic message. -/
def cloudErrorResponse (model endpoint e : String) : String :=
  let msg := lowerStr e
  if strContainsSub msg "401" || strContainsSub msg "unauthorized" then
    invalidApiKeyMsg e
  else if strContainsSub msg "404" || strContainsSub msg "not found" then
    unknownModelMsg model e
  else if strContainsSub msg "connection" || strContainsSub msg "resolve" then
    cloudConnectionMsg endpoint e
  else
    cloudGenericMsg e

/-- Observable outcome of one call_cloud_llm invocation: the returned
string, whether a Client was constructed, and whether a chat request was
issued. -/
structure CloudCall where
  output : String
  clientConstructed : Bool
  requestIssued : Bool
deriving DecidableEq

/-- call_cloud_llm (src/ollama_manager.py lines 201-314). The network
interaction is modelled by `net`: the response text the remote chat call
would produce, or the exception it would raise. An empty api_key returns
the remediation message before any client is constructed; an absent ollama
library likewise; otherwise the client is constructed, the request issued,
and an exception is classified by cloudErrorResponse. -/
def call_cloud_llm (prompt systemPrompt model endpoint api_key : String)
    (ollamaAvailable : Bool) (net : Except String String) : CloudCall :=
  if api_key == "" then
    { output := noApiKeyMsg, clientConstructed := false, requestIssued := false }
  else if !ollamaAvailable then
    { output := ollamaLibMsg, clientConstructed := false, requestIssued := false }
  else
    match net with
    | .ok content =>
        { output := content, clientConstructed := true, requestIssued := true }
    | .error e =>
        { output := cloudErrorResponse model endpoint e,
          clientConstructed := true, requestIssued := true }

/-- The message when ollama is unavailable for a local call (line 153). -/
def localUnavailableMsg : String :=
  "Error: Ollama not available. Please install it."

/-- The local connection-refused classification message (lines 179-186). -/
def localConnectionMsg (e : String) : String :=
  "Error: Cannot connect to Ollama service.\n\nPlease ensure Ollama is running:\n- Windows: Check system tray for Ollama icon\n- If not running: Start Ollama from Start Menu\n- Or run in terminal: ollama serve\n\nDetails: " ++ e

/-- The generic local error message (lines 189-195). -/
def localGenericMsg (model e : String) : String :=
  "Error calling local LLM: " ++ e ++ "\n\nTroubleshooting:\n1. Ensure Ollama is running\n2. Verify model exists: ollama list\n3. Try: ollama run " ++ model

/-- call_local_llm (src/ollama_manager.py lines 131-198): the local chat
call is modelled by `loc` (response text or raised exception); exceptions
are classified as connection/refused or generic, and every path returns a
string. -/
def call_local_llm (prompt systemPrompt model : String) (ollamaAvailable : Bool)
    (loc : Except String String) : String :=
  if !ollamaAvailable then localUnavailableMsg
  else
    match loc with
    | .ok content => content
    | .error e =>
        let msg := lowerStr e
        if strContainsSub msg "connection" || strContainsSub msg "refused" then
          localConnectionMsg e
        else
          localGenericMsg model e

/-- call_llm (src/ollama_manager.py lines 317-352). The first statement,
`model = config['preferred_model']`, is a raising dict indexing: its
KeyError is modelled as the `Except.error` outcome, since no handler in
call_llm catches it. With the key present, routing reads `use_cloud`
(defaulted to False) and either calls the cloud path with the API key from
the loaded environment (`get_api_key`) and the defaulted cloud_endpoint,
or the local path; both callees are total, so those branches always return
`Except.ok`. -/
def call_llm (prompt systemPrompt : String) (config : PyDict JValue)
    (ollamaAvailable : Bool) (envVars : PyDict String)
    (net loc : Except String String) : Except String String :=
  match dlookup config "preferred_model" with
  | none => .error "KeyError: preferred_model"
  | some model =>
      let use_cloud := truthy ((dlookup config "use_cloud").getD (.bool false))
      if use_cloud then
        let api_key := get_api_key envVars
        .ok (call_cloud_llm prompt systemPrompt (jstr model)
              (jstr ((dlookup config "cloud_endpoint").getD (.str "https://ollama.com")))
              api_key ollamaAvailable net).output
      else
        .ok (call_local_llm prompt systemPrompt (jstr model) ollamaAvailable loc)

/-! Supporting lemmas about the filesystem model. -/

theorem eraseFile_cons (k₁ c₁ : String) (t : FS) (p : String) :
    eraseFile ((k₁, c₁) :: t) p =
      if k₁ = p then eraseFile t p else (k₁, c₁) :: eraseFile t p := by
  by_cases h : k₁ = p <;> simp [eraseFile, List.filter_cons, h]

theorem dlookup_eraseFile (fs : FS) (p k : String) :
    dlookup (eraseFile fs p) k = if p = k then none else dlookup fs k := by
  induction fs with
  | nil => simp [eraseFile, dlookup]
  | cons q t ih =>
    obtain ⟨k₁, c₁⟩ := q
    rw [eraseFile_cons]
    by_cases hp : k₁ = p
    · subst hp
      rw [if_pos rfl, ih]
      by_cases hk : k₁ = k
      · subst hk; simp
      · simp [dlookup, hk]
    · rw [if_neg hp]
      by_cases hk : k₁ = k
      · subst hk
        have hpk : ¬ p = k₁ := fun h => hp h.symm
        simp [dlookup, hpk]
      · simp only [dlookup, if_neg hk]
        exact ih

theorem dlookup_setFile (fs : FS) (p c k : String) :
    dlookup (setFile fs p c) k = if p = k then some c else dlookup fs k := by
  by_cases h : p = k
  · simp [setFile, dlookup, h]
  · simp [setFile, dlookup, h, dlookup_eraseFile]

/-- Running a block of writes to one open file appends their concatenation
to its content. -/
theorem applyOps_writeBlock (p : String) : ∀ (ss : List String) (fs : FS) (s₀ : String),
    dlookup fs p = some s₀ →
    dlookup (applyOps fs (ss.map (FOp.write p))) p = some (s₀ ++ strJoin ss) := by
  intro ss
  induction ss with
  | nil =>
    intro fs s₀ h
    simpa [applyOps, strJoin] using h
  | cons s t ih =>
    intro fs s₀ h
    simp only [List.map_cons, applyOps, List.foldl_cons]
    have hstep : dlookup (applyOp fs (FOp.write p s)) p = some (s₀ ++ s) := by
      simp [applyOp, h, dlookup_setFile]
    have := ih (applyOp fs (FOp.write p s)) (s₀ ++ s) hstep
    simpa [applyOps, strJoin, String.append_assoc] using this

theorem empty_string_append (s : String) : "" ++ s = s := by
  apply String.ext
  simp [String.data_append]

theorem dlookup_setFile_ne (fs : FS) (p c k : String) (h : p ≠ k) :
    dlookup (setFile fs p c) k = dlookup fs k := by
  rw [dlookup_setFile, if_neg h]

theorem applyOps_cons (fs : FS) (op : FOp) (ops : List FOp) :
    applyOps fs (op :: ops) = applyOps (applyOp fs op) ops := rfl

/-- Membership in the extracted local-model names: exactly the entries whose
name field is present and non-empty. -/
theorem mem_localNamesOf (m : String) (entries : List (Option String)) :
    m ∈ localNamesOf entries ↔ some m ∈ entries ∧ m ≠ "" := by
  unfold localNamesOf
  rw [List.mem_filter, List.mem_map]
  constructor
  · rintro ⟨⟨o, ho, rfl⟩, hne⟩
    have hne2 : o.getD "" ≠ "" := by simpa using hne
    cases o with
    | none => simp at hne2
    | some s => exact ⟨ho, hne2⟩
  · rintro ⟨hm, hne⟩
    exact ⟨⟨some m, hm, rfl⟩, by simpa using hne⟩

/-! The claims. -/

/-- C1: for every prompt and system prompt (and model, endpoint, library
availability and network behaviour), calling the cloud path with an empty
API key returns the MissingCredential remediation text (noApiKeyMsg, which
points the user at the key-management UI) and performs no network call:
the result records that no client was constructed and no request was
issued, and it does not depend on the network at all. -/
theorem call_cloud_llm_empty_key_short_circuits
    (prompt systemPrompt model endpoint : String)
    (ollamaAvailable : Bool) (net : Except String String) :
    call_cloud_llm prompt systemPrompt model endpoint "" ollamaAvailable net =
      { output := noApiKeyMsg, clientConstructed := false, requestIssued := false } := rfl

/-- C2 counterexample: the router call_llm raises (modelled as the
`Except.error` outcome of the raising dict indexing
`config['preferred_model']`) on a configuration that lacks the
preferred_model key, so it does not return a string for every
configuration dictionary. -/
theorem call_llm_missing_preferred_model_raises :
    call_llm "Hola" "You are a Spanish tutor" [] true []
        (Except.ok "resp") (Except.ok "resp") =
      Except.error "KeyError: preferred_model" := rfl

/-- C2 amended: for every prompt, system prompt and configuration that
contains the preferred_model key, call_llm returns a string and never
raises: every failure inside the routed call is caught, classified and
converted to a returned value. -/
theorem call_llm_total_when_model_present (prompt systemPrompt : String)
    (config : PyDict JValue) (ollamaAvailable : Bool) (envVars : PyDict String)
    (net loc : Except String String)
    (h : (dlookup config "preferred_model").isSome = true) :
    ∃ s, call_llm prompt systemPrompt config ollamaAvailable envVars net loc =
      Except.ok s := by
  obtain ⟨m, hm⟩ := Option.isSome_iff_exists.mp h
  unfold call_llm
  rw [hm]
  cases hc : truthy ((dlookup config "use_cloud").getD (.bool false)) <;> simp [hc]

/-- Witness for the amended C2 theorem at a concrete configuration that
holds a preferred_model key. -/
theorem call_llm_total_when_model_present_witness :
    ∃ s, call_llm "Hola" "You are a Spanish tutor"
        [("preferred_model", JValue.str "llama2")] true []
        (Except.ok "resp") (Except.ok "resp") = Except.ok s :=
  call_llm_total_when_model_present "Hola" "You are a Spanish tutor"
    [("preferred_model", JValue.str "llama2")] true []
    (Except.ok "resp") (Except.ok "resp") (by decide)

/-- C3: for every persisted configuration object that parses successfully,
load_config contains every key of the default set, and every key of the
persisted object keeps its persisted value (persisted values override
defaults, and unknown persisted keys are preserved unchanged). -/
theorem load_config_merge_invariants (loaded : PyDict JValue) :
    (∀ k, (dlookup DEFAULT_CONFIG k).isSome = true →
        (dlookup (load_config (DiskConfig.parsed loaded)) k).isSome = true) ∧
    (∀ k v, dlookup loaded k = some v →
        dlookup (load_config (DiskConfig.parsed loaded)) k = some v) := by
  constructor
  · intro k hk
    simp only [load_config]
    rw [dlookup_mergeDicts]
    cases hb : dlookup loaded k <;> simp [Option.orElse, hk]
  · intro k v hv
    simp only [load_config]
    rw [dlookup_mergeDicts, hv]
    rfl

/-- Witness for C3 at a persisted object with one unknown key and one
overridden default key. -/
theorem load_config_merge_invariants_witness :
    (dlookup (load_config (DiskConfig.parsed
        [("custom_key", JValue.str "x"), ("theme", JValue.str "dark")])) "version").isSome
      = true ∧
    dlookup (load_config (DiskConfig.parsed
        [("custom_key", JValue.str "x"), ("theme", JValue.str "dark")])) "custom_key"
      = some (JValue.str "x") ∧
    dlookup (load_config (DiskConfig.parsed
        [("custom_key", JValue.str "x"), ("theme", JValue.str "dark")])) "theme"
      = some (JValue.str "dark") :=
  ⟨(load_config_merge_invariants
      [("custom_key", JValue.str "x"), ("theme", JValue.str "dark")]).1 "version" (by decide),
   (load_config_merge_invariants
      [("custom_key", JValue.str "x"), ("theme", JValue.str "dark")]).2 "custom_key"
      (JValue.str "x") (by decide),
   (load_config_merge_invariants
      [("custom_key", JValue.str "x"), ("theme", JValue.str "dark")]).2 "theme"
      (JValue.str "dark") (by decide)⟩

/-- C4: for every well-formed configuration (one containing all default
keys, as any configuration produced by load_config does), saving with
save_config and loading again with load_config yields the same
configuration: the merge with the defaults changes no key and adds none,
so load(save(cfg)) equals cfg as a mapping. -/
theorem save_then_load_roundtrip (cfg : PyDict JValue)
    (hwf : ∀ k, (dlookup DEFAULT_CONFIG k).isSome = true →
        (dlookup cfg k).isSome = true) :
    ∀ k, dlookup (load_config (save_config_store cfg)) k = dlookup cfg k := by
  intro k
  simp only [save_config_store, load_config]
  rw [dlookup_mergeDicts]
  cases hc : dlookup cfg k with
  | some v => rfl
  | none =>
    have hd : dlookup DEFAULT_CONFIG k = none := by
      cases hd : dlookup DEFAULT_CONFIG k with
      | none => rfl
      | some v =>
        have := hwf k (by simp [hd])
        rw [hc] at this
        simp at this
    simp [Option.orElse, hd]

/-- Witness for C4 at the concrete default configuration. -/
theorem save_then_load_roundtrip_witness :
    dlookup (load_config (save_config_store DEFAULT_CONFIG)) "theme" =
      dlookup DEFAULT_CONFIG "theme" :=
  save_then_load_roundtrip DEFAULT_CONFIG (fun _ h => h) "theme"

/-- C9: getSecret (get_api_key) on an empty or missing secrets store
returns the empty string: with no env file, with an empty env file in
either location, or with an unreadable env file, the loaded store yields
no OLLAMA_API_KEY and the accessor defaults to the empty string; the
function is total, so absence of the key never raises. -/
theorem get_api_key_empty_or_missing_store :
    get_api_key (load_env none none) = "" ∧
    get_api_key (load_env (some (Except.ok [])) none) = "" ∧
    get_api_key (load_env none (some (Except.ok []))) = "" ∧
    get_api_key (load_env (some (Except.error ())) none) = "" ∧
    get_api_key (load_env none (some (Except.error ()))) = "" ∧
    get_api_key [] = "" :=
  ⟨rfl, rfl, rfl, rfl, rfl, rfl⟩

/-- C5: save_config writes atomically — it writes the full content to the
temporary file and only then renames it over config.json — so a save
interrupted at any point before the rename (any strict prefix of the
operation sequence) leaves the persisted config.json byte-identical to its
pre-save state; a save whose operation at index i raises is caught
(_atomic_write unlinks the temp file, save_config returns False instead of
raising) and also leaves config.json unchanged; and a completed save puts
exactly the serialized content at config.json and returns True. -/
theorem save_config_atomic (fs : FS) (content : String) :
    (∀ k, k < 3 →
        dlookup (applyOps fs ((save_config_ops content).take k)) CONFIG_FILE =
          dlookup fs CONFIG_FILE) ∧
    (∀ i, i < 3 →
        (save_config_run fs content (some i)).2 = false ∧
        dlookup (save_config_run fs content (some i)).1 CONFIG_FILE =
          dlookup fs CONFIG_FILE) ∧
    dlookup (save_config_run fs content none).1 CONFIG_FILE = some content ∧
    (save_config_run fs content none).2 = true := by
  have htmp : CONFIG_TMP ≠ CONFIG_FILE := by decide
  have hpre : ∀ k, k < 3 →
      dlookup (applyOps fs ((save_config_ops content).take k)) CONFIG_FILE =
        dlookup fs CONFIG_FILE := by
    intro k hk
    interval_cases k
    · rfl
    · simp only [save_config_ops, List.take, applyOps, List.foldl, applyOp]
      exact dlookup_setFile_ne _ _ _ _ htmp
    · simp only [save_config_ops, List.take, applyOps, List.foldl, applyOp]
      rw [dlookup_setFile_ne _ _ _ _ htmp, dlookup_setFile_ne _ _ _ _ htmp]
  refine ⟨hpre, ?_, ?_, rfl⟩
  · intro i hi
    have hlen : i < (save_config_ops content).length := by
      simpa [save_config_ops] using hi
    constructor
    · simp [save_config_run, hlen]
    · simp only [save_config_run, hlen, if_pos]
      rw [show applyOp (applyOps fs ((save_config_ops content).take i))
            (FOp.unlink CONFIG_TMP) =
          eraseFile (applyOps fs ((save_config_ops content).take i)) CONFIG_TMP from rfl]
      rw [dlookup_eraseFile, if_neg htmp]
      exact hpre i hi
  · simp [save_config_run, save_config_ops, applyOps, applyOp, dlookup_setFile,
      dlookup_eraseFile, empty_string_append, htmp]

/-- Witness for C5: interrupting a concrete save after the temp-file write
leaves the persisted file unchanged, and a raising save returns False. -/
theorem save_config_atomic_witness :
    dlookup (applyOps [(CONFIG_FILE, "old")] ((save_config_ops "new").take 1))
        CONFIG_FILE =
      dlookup [(CONFIG_FILE, "old")] CONFIG_FILE ∧
    (save_config_run [(CONFIG_FILE, "old")] "new" (some 1)).2 = false :=
  ⟨(save_config_atomic [(CONFIG_FILE, "old")] "new").1 1 (by decide),
   ((save_config_atomic [(CONFIG_FILE, "old")] "new").2.1 1 (by decide)).1⟩

/-- C6 counterexample: save_env does not follow the temp-file-then-rename
discipline — its very first operation truncates the secrets file in place,
so a save interrupted right after opening leaves the previously persisted
secrets file changed (emptied), not byte-identical. -/
theorem save_env_interrupted_changes_file :
    dlookup (applyOps [(ENV_FILE, "OLLAMA_API_KEY=old\n")]
        ((save_env_ops [("OLLAMA_API_KEY", "new")]).take 1)) ENV_FILE ≠
      dlookup [(ENV_FILE, "OLLAMA_API_KEY=old\n")] ENV_FILE := by decide

/-- C6 amended: save_env writes the secrets file directly, not atomically:
its operation sequence contains no rename, it begins by opening (and
thereby truncating) the target secrets file itself, a completed save
leaves exactly the header plus the sorted KEY=VALUE lines in the file, and
a save whose operation at index i raises is caught and returns False (with
no cleanup), so an interrupted save can leave the secrets file truncated
or partially written. -/
theorem save_env_direct_write (env : PyDict String) (fs : FS) :
    (∀ op ∈ save_env_ops env, op.isRenameStep = false) ∧
    (save_env_ops env).head? = some (FOp.openTrunc ENV_FILE) ∧
    dlookup (applyOps fs (save_env_ops env)) ENV_FILE =
      some (strJoin (save_env_writes env)) ∧
    (∀ i, i < (save_env_ops env).length →
        (save_env_run fs env (some i)).2 = false) ∧
    (save_env_run fs env none).2 = true := by
  refine ⟨?_, rfl, ?_, ?_, rfl⟩
  · intro op hop
    rcases List.mem_cons.mp hop with rfl | hop
    · rfl
    · obtain ⟨s, _, rfl⟩ := List.mem_map.mp hop
      rfl
  · rw [save_env_ops, applyOps_cons]
    have h0 : dlookup (applyOp fs (FOp.openTrunc ENV_FILE)) ENV_FILE = some "" := by
      simp [applyOp, dlookup_setFile]
    have hrun := applyOps_writeBlock ENV_FILE (save_env_writes env)
      (applyOp fs (FOp.openTrunc ENV_FILE)) "" h0
    rw [hrun, empty_string_append]
  · intro i hi
    simp [save_env_run, hi]

/-- Witness for the amended C6 theorem at a concrete store and
environment. -/
theorem save_env_direct_write_witness :
    dlookup (applyOps [] (save_env_ops [("OLLAMA_API_KEY", "new")])) ENV_FILE =
      some (strJoin (save_env_writes [("OLLAMA_API_KEY", "new")])) ∧
    (save_env_run [] [("OLLAMA_API_KEY", "new")] (some 0)).2 = false :=
  ⟨(save_env_direct_write [("OLLAMA_API_KEY", "new")] []).2.2.1,
   (save_env_direct_write [("OLLAMA_API_KEY", "new")] []).2.2.2.1 0 (by decide)⟩

/-- C7: for every error raised by the cloud call whose lowercased text
indicates not-found (contains 404 or not found) and is not classified as
unauthorized first, call_cloud_llm's classifier returns the UnknownModel
message, and that message enumerates exactly the model names of the static
cloud catalog returned by get_cloud_models, in catalog order. -/
theorem cloud_404_enumerates_catalog (model endpoint e : String)
    (h404 : (strContainsSub (lowerStr e) "404" ||
        strContainsSub (lowerStr e) "not found") = true)
    (h401 : (strContainsSub (lowerStr e) "401" ||
        strContainsSub (lowerStr e) "unauthorized") = false) :
    cloudErrorResponse model endpoint e =
      "Error: Model '" ++ model ++
        ("' not found on Ollama cloud.\n\nAvailable cloud models:\n" ++
          strJoin ((get_cloud_models.map CloudModel.name).map
            (fun n => "- " ++ n ++ "\n")) ++
          "\nDetails: ") ++ e := by
  have hmid : ("' not found on Ollama cloud.\n\nAvailable cloud models:\n" ++
      strJoin ((get_cloud_models.map CloudModel.name).map
        (fun n => "- " ++ n ++ "\n")) ++
      "\nDetails: ") =
      "' not found on Ollama cloud.\n\nAvailable cloud models:\n- deepseek-v3.1:671b-cloud\n- gpt-oss:120b-cloud\n- gpt-oss:20b-cloud\n- qwen3-coder:480b-cloud\n\nDetails: " := by
    decide
  rw [hmid]
  simp only [cloudErrorResponse, h404, h401, Bool.false_eq_true, if_false, if_true]
  rfl

/-- Witness for C7 at a concrete 404 error text. -/
theorem cloud_404_enumerates_catalog_witness :
    cloudErrorResponse "llama2" "https://ollama.com" "404 Not Found" =
      "Error: Model '" ++ "llama2" ++
        ("' not found on Ollama cloud.\n\nAvailable cloud models:\n" ++
          strJoin ((get_cloud_models.map CloudModel.name).map
            (fun n => "- " ++ n ++ "\n")) ++
          "\nDetails: ") ++ "404 Not Found" :=
  cloud_404_enumerates_catalog "llama2" "https://ollama.com" "404 Not Found"
    (by decide) (by decide)

/-- C8: get_local_models never raises: on an API response it returns a
sorted (strictly increasing), duplicate-free list holding exactly the
non-empty model names of the response entries; when the API query fails
and the filesystem fallback finds nothing (directory missing, empty, or
scan failure), or the ollama library is unavailable, it returns the empty
list. The spec's scenario with names model-b, model-a, model-b yields
exactly model-a then model-b. -/
theorem get_local_models_spec (entries : List (Option String)) (fsr fsr2 : FsScan)
    (api : Except String (List (Option String))) (e : String) :
    ((get_local_models true (.ok entries) fsr).Pairwise
        (fun a b => strLtB a b = true) ∧
     (get_local_models true (.ok entries) fsr).Nodup ∧
     (∀ m, m ∈ get_local_models true (.ok entries) fsr ↔
        (some m ∈ entries ∧ m ≠ ""))) ∧
    get_local_models true (.error e) .missing = [] ∧
    get_local_models true (.error e) .failure = [] ∧
    get_local_models true (.error e) (.dirs []) = [] ∧
    get_local_models false api fsr2 = [] ∧
    get_local_models true (.ok [some "model-b", some "model-a", some "model-b"])
        FsScan.missing = ["model-a", "model-b"] := by
  refine ⟨⟨?_, ?_, ?_⟩, rfl, rfl, rfl, rfl, by decide⟩
  · simpa [get_local_models] using pairwise_sortedSet (localNamesOf entries)
  · simpa [get_local_models] using nodup_sortedSet (localNamesOf entries)
  · intro m
    simp only [get_local_models, Bool.not_true, Bool.false_eq_true, if_false]
    rw [mem_sortedSet, mem_localNamesOf]

/-- C10: the cloud failure classification is by ordered substring checks
on the lowercased error text — unauthorized is tested before not-found,
and not-found before connection — so an error text containing unauthorized
yields the InvalidCredential message even if it also mentions not found,
while an error text containing not found but neither 401 nor unauthorized
(such as a DNS failure reading host not found) yields the UnknownModel
message and not the ServiceUnavailable (connection) message. -/
theorem cloud_classification_substring_order (model endpoint e : String) :
    (strContainsSub (lowerStr e) "unauthorized" = true →
      cloudErrorResponse model endpoint e = invalidApiKeyMsg e) ∧
    (strContainsSub (lowerStr e) "not found" = true →
      strContainsSub (lowerStr e) "401" = false →
      strContainsSub (lowerStr e) "unauthorized" = false →
      cloudErrorResponse model endpoint e = unknownModelMsg model e ∧
      cloudErrorResponse model endpoint e ≠ cloudConnectionMsg endpoint e) := by
  constructor
  · intro hu
    simp [cloudErrorResponse, hu]
  · intro hnf h401 hu
    have hres : cloudErrorResponse model endpoint e = unknownModelMsg model e := by
      simp [cloudErrorResponse, hnf, h401, hu]
    refine ⟨hres, ?_⟩
    rw [hres]
    intro hEq
    have h1 : (unknownModelMsg model e).data =
        "Error: Model '".data ++ (model.data ++
          (("' not found on Ollama cloud.\n\nAvailable cloud models:\n- deepseek-v3.1:671b-cloud\n- gpt-oss:120b-cloud\n- gpt-oss:20b-cloud\n- qwen3-coder:480b-cloud\n\nDetails: ").data ++
            e.data)) := by
      rw [unknownModelMsg, String.data_append, String.data_append,
        String.data_append, List.append_assoc, List.append_assoc]
    have h2 : (cloudConnectionMsg endpoint e).data =
        "Error: Cannot connect to ".data ++ (endpoint.data ++
          (("\n\nPlease check:\n1. Internet connection\n2. Endpoint URL (should be: https://ollama.com)\n3. Firewall settings\n\nDetails: ").data ++
            e.data)) := by
      rw [cloudConnectionMsg, String.data_append, String.data_append,
        String.data_append, List.append_assoc, List.append_assoc]
    have hd : "Error: Model '".data ++ (model.data ++
        (("' not found on Ollama cloud.\n\nAvailable cloud models:\n- deepseek-v3.1:671b-cloud\n- gpt-oss:120b-cloud\n- gpt-oss:20b-cloud\n- qwen3-coder:480b-cloud\n\nDetails: ").data ++
          e.data)) =
        "Error: Cannot connect to ".data ++ (endpoint.data ++
          (("\n\nPlease check:\n1. Internet connection\n2. Endpoint URL (should be: https://ollama.com)\n3. Firewall settings\n\nDetails: ").data ++
            e.data)) := by
      rw [← h1, ← h2, hEq]
    have h7 := congrArg (fun l => l[7]?) hd
    simp only at h7
    rw [List.getElem?_append_left (by decide),
      List.getElem?_append_left (by decide)] at h7
    exact absurd h7 (by decide)

/-- Witness for C10: the DNS-style error text host not found is classified
as the UnknownModel message, not the connection message, and an
unauthorized text wins over a not-found one. -/
theorem cloud_classification_substring_order_witness :
    cloudErrorResponse "llama2" "https://ollama.com" "Host not found" =
      unknownModelMsg "llama2" "Host not found" ∧
    cloudErrorResponse "llama2" "https://ollama.com" "Host not found" ≠
      cloudConnectionMsg "https://ollama.com" "Host not found" ∧
    cloudErrorResponse "llama2" "https://ollama.com" "unauthorized: model not found" =
      invalidApiKeyMsg "unauthorized: model not found" :=
  ⟨((cloud_classification_substring_order "llama2" "https://ollama.com"
      "Host not found").2 (by decide) (by decide) (by decide)).1,
   ((cloud_classification_substring_order "llama2" "https://ollama.com"
      "Host not found").2 (by decide) (by decide) (by decide)).2,
   (cloud_classification_substring_order "llama2" "https://ollama.com"
      "unauthorized: model not found").1 (by decide)⟩

end LearnSpanish
